import Mathlib

/-!
Shallow embedding of the omg-tool arbitrage bot core:
`src/core/arbitrage_detector.py`, `src/core/risk_manager.py`,
`src/core/position_manager.py`, `src/core/websocket_manager.py`,
`src/exchanges/bitget.py`, `src/interfaces/exchange.py` and
`price_logger.py`.

Python `Decimal` values are modelled as `ℚ`, `datetime` instants as `ℚ`
seconds, and Python dicts as insertion-ordered association lists.
-/

namespace OmgTool

/-- `d.get(k, default)` on an insertion-ordered Python dict. -/
def dictGetD {α : Type} (l : List (String × α)) (k : String) (d : α) : α :=
  match l with
  | [] => d
  | (k2, v) :: rest => if k2 = k then v else dictGetD rest k d

/-- `d.get(k)` on an insertion-ordered Python dict (`None` when absent). -/
def dictGet {α : Type} (l : List (String × α)) (k : String) : Option α :=
  match l with
  | [] => none
  | (k2, v) :: rest => if k2 = k then some v else dictGet rest k

/-- `d[k] = v` on an insertion-ordered Python dict: replace the first
binding in place, append when the key is absent. -/
def dictSet {α : Type} (l : List (String × α)) (k : String) (v : α) :
    List (String × α) :=
  match l with
  | [] => [(k, v)]
  | (k2, v2) :: rest =>
    if k2 = k then (k, v) :: rest else (k2, v2) :: dictSet rest k v

/-- `sum(d.values())` for a dict of rationals. -/
def dictSum (l : List (String × ℚ)) : ℚ := (l.map Prod.snd).sum

/-- `src/interfaces/exchange.py` `OrderSide`. -/
inductive OrderSide
  | buy
  | sell
deriving DecidableEq, Repr

/-- `src/interfaces/exchange.py` `OrderStatus`. -/
inductive OrderStatus
  | pending
  | open
  | partiallyFilled
  | filled
  | cancelled
  | rejected
deriving DecidableEq, Repr

/-- `src/interfaces/exchange.py` `Ticker` (bid/ask/last/mark as `Decimal`,
`volume_24h` optional). -/
structure Ticker where
  symbol : String
  bid : ℚ
  ask : ℚ
  last : ℚ
  markPrice : ℚ
  volume24h : Option ℚ := none
  timestamp : ℕ := 0
deriving DecidableEq, Repr

/-- `src/interfaces/exchange.py` `OrderBook`: price levels as
`(price, size)` pairs. -/
structure OrderBook where
  symbol : String
  bids : List (ℚ × ℚ)
  asks : List (ℚ × ℚ)
  timestamp : ℕ := 0
deriving DecidableEq, Repr

/-- `src/interfaces/exchange.py` `Order`. -/
structure Order where
  id : String
  symbol : String
  side : OrderSide
  type : String
  price : Option ℚ
  quantity : ℚ
  filled : ℚ := 0
  remaining : ℚ := 0
  status : OrderStatus := OrderStatus.pending
  timestamp : ℕ := 0
  fee : Option ℚ := none
deriving DecidableEq, Repr

/-- `ArbitrageDetector.__init__` thresholds
(`src/core/arbitrage_detector.py`). -/
structure DetectorParams where
  minSpreadThreshold : ℚ := 1/2
  maxPositionSize : ℚ := 10000
  minProfitThreshold : ℚ := 10
deriving DecidableEq, Repr

/-- `ArbitrageOpportunity` (`src/core/arbitrage_detector.py`); the `id`
records the counter value used to build the `ARB_xxxxxx` string. -/
structure Opportunity where
  id : ℕ
  buyExchange : String
  sellExchange : String
  symbol : String
  spreadPercentage : ℚ
  expectedProfit : ℚ
  buyPrice : ℚ
  sellPrice : ℚ
  recommendedSize : ℚ
  slippageBuy : Option ℚ := none
  slippageSell : Option ℚ := none
deriving DecidableEq, Repr

/-- `ArbitrageOpportunity.net_spread`: spread minus total slippage, with
`None` slippage read as `0` (Python `or Decimal("0")`). -/
def Opportunity.netSpread (o : Opportunity) : ℚ :=
  o.spreadPercentage - ((o.slippageBuy.getD 0) + (o.slippageSell.getD 0))

/-- The `volume_24h * 0.1 if volume_24h else max_position_size` operand of
`_calculate_optimal_size`; Python truthiness reads both `None` and `0`
volume as falsy. -/
def volumeLimitOf (maxPos : ℚ) (t : Ticker) : ℚ :=
  match t.volume24h with
  | none => maxPos
  | some v => if v = 0 then maxPos else v * (1/10)

/-- `ArbitrageDetector._calculate_optimal_size`. -/
def calcOptimalSize (p : DetectorParams) (buyT sellT : Ticker) : ℚ :=
  let volumeLimit := min (volumeLimitOf p.maxPositionSize buyT)
                         (volumeLimitOf p.maxPositionSize sellT)
  let sizeInUsd := min p.maxPositionSize (volumeLimit * buyT.ask)
  sizeInUsd / buyT.ask

/-- `ArbitrageDetector._check_opportunity`, threading the opportunity
counter. -/
def checkOpportunity (p : DetectorParams) (ctr : ℕ)
    (buyExchange : String) (buyT : Ticker)
    (sellExchange : String) (sellT : Ticker)
    (symbol : String) : Option Opportunity × ℕ :=
  if (sellT.bid - buyT.ask) / buyT.ask * 100 < p.minSpreadThreshold then
    (none, ctr)
  else if calcOptimalSize p buyT sellT ≤ 0 then (none, ctr)
  else if (sellT.bid - buyT.ask) * calcOptimalSize p buyT sellT <
      p.minProfitThreshold then (none, ctr)
  else
    (some { id := ctr + 1, buyExchange := buyExchange,
            sellExchange := sellExchange, symbol := symbol,
            spreadPercentage := (sellT.bid - buyT.ask) / buyT.ask * 100,
            expectedProfit :=
              (sellT.bid - buyT.ask) * calcOptimalSize p buyT sellT,
            buyPrice := buyT.ask, sellPrice := sellT.bid,
            recommendedSize := calcOptimalSize p buyT sellT }, ctr + 1)

/-- Inner loop of `check_arbitrage`: pair `ex1` with every later exchange,
checking both directions. -/
def innerPairs (p : DetectorParams) (symbol : String)
    (ex1 : String) (t1 : Ticker) :
    ℕ → List (String × Ticker) → List Opportunity × ℕ
  | ctr, [] => ([], ctr)
  | ctr, (ex2, t2) :: rest =>
    let r1 := checkOpportunity p ctr ex1 t1 ex2 t2 symbol
    let r2 := checkOpportunity p r1.2 ex2 t2 ex1 t1 symbol
    let r3 := innerPairs p symbol ex1 t1 r2.2 rest
    (r1.1.toList ++ r2.1.toList ++ r3.1, r3.2)

/-- Outer loop of `check_arbitrage` over the cached exchange list. -/
def outerPairs (p : DetectorParams) (symbol : String) :
    ℕ → List (String × Ticker) → List Opportunity × ℕ
  | ctr, [] => ([], ctr)
  | ctr, (ex1, t1) :: rest =>
    let r1 := innerPairs p symbol ex1 t1 ctr rest
    let r2 := outerPairs p symbol r1.2 rest
    (r1.1 ++ r2.1, r2.2)

/-- `ArbitrageDetector.check_arbitrage`. -/
def checkArbitrage (p : DetectorParams)
    (cache : List (String × List (String × Ticker)))
    (ctr : ℕ) (symbol : String) : List Opportunity × ℕ :=
  if (dictGetD cache symbol []).length < 2 then ([], ctr)
  else outerPairs p symbol ctr (dictGetD cache symbol [])

/-- The cache write of `ArbitrageDetector.update_price` (and of
`PriceAggregator._handle_ticker_update` in
`src/core/websocket_manager.py`, which is identical): unconditionally
store the incoming ticker under `(symbol, exchange)`. -/
def updatePriceCache (cache : List (String × List (String × Ticker)))
    (exchange : String) (t : Ticker) :
    List (String × List (String × Ticker)) :=
  dictSet cache t.symbol (dictSet (dictGetD cache t.symbol []) exchange t)

/-- The level walk of `_calculate_default_slippage` /
`ExchangeInterface.calculate_slippage`: returns
`(total_cost, remaining)` after consuming the book. -/
def walkBook : List (ℚ × ℚ) → ℚ → ℚ → ℚ × ℚ
  | [], remaining, totalCost => (totalCost, remaining)
  | (price, volume) :: rest, remaining, totalCost =>
    if remaining ≤ 0 then (totalCost, remaining)
    else walkBook rest (remaining - min remaining volume)
           (totalCost + price * min remaining volume)

/-- Side selection of the slippage walk: asks for BUY, bids for SELL. -/
def sideOf (ob : OrderBook) (side : OrderSide) : List (ℚ × ℚ) :=
  if side = OrderSide.buy then ob.asks else ob.bids

/-- `ArbitrageDetector._calculate_default_slippage`. -/
def calculateDefaultSlippage (ob : OrderBook) (side : OrderSide)
    (size : ℚ) : ℚ :=
  match sideOf ob side with
  | [] => 999
  | (bestPrice, _) :: _ =>
    if 0 < (walkBook (sideOf ob side) size 0).2 then 999
    else |(walkBook (sideOf ob side) size 0).1 / size - bestPrice| /
      bestPrice * 100

/-- Specification-side cost of filling `s` against a book, without the
early-exit accumulator style of `walkBook`. -/
def fillCost : List (ℚ × ℚ) → ℚ → ℚ
  | [], _ => 0
  | (price, volume) :: rest, s =>
    if s ≤ 0 then 0
    else price * min s volume + fillCost rest (s - min s volume)

/-- Total liquidity of one side of a book. -/
def totalVolume (book : List (ℚ × ℚ)) : ℚ := (book.map Prod.snd).sum

/-- `src/core/position_manager.py` `PositionStatus`. -/
inductive PositionStatus
  | pending
  | opening
  | open
  | closing
  | closed
  | failed
deriving DecidableEq, Repr

/-- `src/core/position_manager.py` `ArbitragePosition`. -/
structure ArbitragePosition where
  id : String
  opportunityId : ℕ
  symbol : String
  longExchange : String
  shortExchange : String
  size : ℚ
  entrySpread : ℚ
  exitSpreadTarget : ℚ := 1/10
  longOrder : Option Order := none
  shortOrder : Option Order := none
  closeLongOrder : Option Order := none
  closeShortOrder : Option Order := none
  createdAt : ℚ := 0
  openedAt : Option ℚ := none
  closedAt : Option ℚ := none
  realizedPnl : ℚ := 0
  unrealizedPnl : ℚ := 0
  feesPaid : ℚ := 0
  status : PositionStatus := PositionStatus.pending
  errorMessage : Option String := none
deriving DecidableEq, Repr

/-- `ArbitragePosition.net_pnl`. -/
def ArbitragePosition.netPnl (p : ArbitragePosition) : ℚ :=
  p.realizedPnl - p.feesPaid

/-- `order.status in [OrderStatus.FILLED, OrderStatus.PARTIALLY_FILLED]`. -/
def orderFilledOk (o : Order) : Bool :=
  o.status = OrderStatus.filled || o.status = OrderStatus.partiallyFilled

/-- `PositionManager.open_position` after both `place_order` calls have
returned (the no-exception path): build the position, record both orders,
and set the final status.  The source compares only the two order
statuses; filled quantities are never inspected and no correcting order
is placed. -/
def openPositionResult (positionId : String) (now : ℚ) (opp : Opportunity)
    (longOrder shortOrder : Order) : ArbitragePosition :=
  let position : ArbitragePosition :=
    { id := positionId, opportunityId := opp.id, symbol := opp.symbol,
      longExchange := opp.buyExchange, shortExchange := opp.sellExchange,
      size := opp.recommendedSize, entrySpread := opp.spreadPercentage,
      status := PositionStatus.opening,
      longOrder := some longOrder, shortOrder := some shortOrder }
  if orderFilledOk longOrder && orderFilledOk shortOrder then
    { position with
      status := PositionStatus.open, openedAt := some now,
      feesPaid := longOrder.fee.getD 0 + shortOrder.fee.getD 0 }
  else
    { position with
      status := PositionStatus.failed,
      errorMessage := some "Orders not filled" }

/-- `src/core/risk_manager.py` `RiskParameters` with its defaults. -/
structure RiskParameters where
  maxPositionSize : ℚ := 10000
  maxTotalExposure : ℚ := 50000
  maxPositionsPerSymbol : ℕ := 3
  maxTotalPositions : ℕ := 10
  maxSlippagePercentage : ℚ := 1/2
  minNetSpread : ℚ := 1/5
  maxPositionDuration : ℚ := 24 * 3600
  cooldownPeriod : ℚ := 300
  maxDailyLoss : ℚ := 1000
  maxDrawdown : ℚ := 5000
  stopLossPercentage : ℚ := 2
  maxExchangeExposure : ℚ := 20000
  minExchangeBalance : ℚ := 1000
deriving DecidableEq, Repr

/-- The mutable fields of `RiskManager`. -/
structure RiskState where
  currentExposure : List (String × ℚ) := []
  exchangeExposure : List (String × ℚ) := []
  dailyPnl : ℚ := 0
  maxDrawdownToday : ℚ := 0
  lastTradeTime : List (String × ℚ) := []
  blockedSymbols : List String := []
  blockedExchanges : List String := []
deriving DecidableEq, Repr

/-- `RiskManager.__init__` state. -/
def initialRiskState : RiskState := {}

/-- `position.size * (position.long_order.price if position.long_order
else Decimal("0"))`.  A present order with a `None` price is read as `0`
here; in Python that case would raise, so it is outside the modelled
domain. -/
def positionValue (p : ArbitragePosition) : ℚ :=
  p.size * (match p.longOrder with
            | none => 0
            | some o => o.price.getD 0)

/-- `RiskManager.update_position_opened`: the position value is added to
one symbol entry and to both the long and the short exchange entries. -/
def updatePositionOpened (s : RiskState) (now : ℚ)
    (p : ArbitragePosition) : RiskState :=
  let v := positionValue p
  let e1 := dictSet s.exchangeExposure p.longExchange
              (dictGetD s.exchangeExposure p.longExchange 0 + v)
  { s with
    currentExposure := dictSet s.currentExposure p.symbol
      (dictGetD s.currentExposure p.symbol 0 + v),
    exchangeExposure := dictSet e1 p.shortExchange
      (dictGetD e1 p.shortExchange 0 + v),
    lastTradeTime := dictSet s.lastTradeTime p.symbol now }

/-- `RiskManager.update_position_closed`: subtraction clamped at zero by
`max(Decimal("0"), ...)`, plus PnL and drawdown bookkeeping. -/
def updatePositionClosed (s : RiskState) (p : ArbitragePosition) :
    RiskState :=
  let v := positionValue p
  let e1 := dictSet s.exchangeExposure p.longExchange
              (max 0 (dictGetD s.exchangeExposure p.longExchange 0 - v))
  { s with
    currentExposure := dictSet s.currentExposure p.symbol
      (max 0 (dictGetD s.currentExposure p.symbol 0 - v)),
    exchangeExposure := dictSet e1 p.shortExchange
      (max 0 (dictGetD e1 p.shortExchange 0 - v)),
    dailyPnl := s.dailyPnl + p.netPnl,
    maxDrawdownToday := if p.netPnl < 0
      then max s.maxDrawdownToday |p.netPnl| else s.maxDrawdownToday }

/-- `update_position_closed` with the zero-clamp removed: plain
subtraction at every touched entry. -/
def updatePositionClosedExact (s : RiskState) (p : ArbitragePosition) :
    RiskState :=
  let v := positionValue p
  let e1 := dictSet s.exchangeExposure p.longExchange
              (dictGetD s.exchangeExposure p.longExchange 0 - v)
  { s with
    currentExposure := dictSet s.currentExposure p.symbol
      (dictGetD s.currentExposure p.symbol 0 - v),
    exchangeExposure := dictSet e1 p.shortExchange
      (dictGetD e1 p.shortExchange 0 - v),
    dailyPnl := s.dailyPnl + p.netPnl,
    maxDrawdownToday := if p.netPnl < 0
      then max s.maxDrawdownToday |p.netPnl| else s.maxDrawdownToday }

/-- `RiskManager.reset_daily_stats`. -/
def resetDailyStats (s : RiskState) : RiskState :=
  { s with dailyPnl := 0, maxDrawdownToday := 0 }

/-- `RiskManager.block_symbol` (`risk_manager.py:209-215`): appends the
symbol to the blocked list when absent.  The `duration_minutes` argument
is unused by the mutation (auto-unblock is not implemented). -/
def blockSymbol (s : RiskState) (symbol : String) : RiskState :=
  if symbol ∈ s.blockedSymbols then s
  else { s with blockedSymbols := s.blockedSymbols ++ [symbol] }

/-- `RiskManager.block_exchange` (`risk_manager.py:217-221`): appends the
exchange to the blocked list when absent; invoked outside the
opened/closed/reset callbacks (e.g. on connection failure). -/
def blockExchange (s : RiskState) (exchange : String) : RiskState :=
  if exchange ∈ s.blockedExchanges then s
  else { s with blockedExchanges := s.blockedExchanges ++ [exchange] }

/-- States reachable from the initial `RiskManager` state through the
update callbacks.  A close step is admitted when its zero-clamps are
inactive (the state carries at least the position value on every touched
entry), which is the case whenever the close matches a still-open
previously opened position. -/
inductive RiskReachable : RiskState → Prop
  | init : RiskReachable initialRiskState
  | opened (s : RiskState) (now : ℚ) (p : ArbitragePosition) :
      RiskReachable s → RiskReachable (updatePositionOpened s now p)
  | closed (s : RiskState) (p : ArbitragePosition) :
      RiskReachable s →
      updatePositionClosedExact s p = updatePositionClosed s p →
      RiskReachable (updatePositionClosed s p)
  | reset (s : RiskState) :
      RiskReachable s → RiskReachable (resetDailyStats s)

/-- The sum of the per-venue exposures of a risk state. -/
def venueExposureSum (s : RiskState) : ℚ := dictSum s.exchangeExposure

/-- The sum of the per-symbol exposures of a risk state. -/
def symbolExposureSum (s : RiskState) : ℚ := dictSum s.currentExposure

/-- One rejection reason per early `return False` of
`RiskManager.validate_opportunity`, plus the success message. -/
inductive RejectReason
  | positionSizeTooLarge
  | tooManyPositionsForSymbol
  | tooManyTotalPositions
  | totalExposureLimitExceeded
  | exchangeExposureLimitExceeded
  | buySlippageTooHigh
  | sellSlippageTooHigh
  | netSpreadTooLow
  | cooldownActive
  | dailyLossLimitReached
  | maxDrawdownReached
  | symbolOrExchangeBlocked
  | insufficientBalance
  | riskCheckPassed
deriving DecidableEq, Repr

/-- Python substring test `t in s` via `splitOn` (for nonempty `t`). -/
def strContains (s t : String) : Bool := (s.splitOn t).length != 1

/-- `if opportunity.slippage_buy and opportunity.slippage_buy > limit`:
Python truthiness reads both `None` and `Decimal("0")` as falsy. -/
def slippageFlag (slip : Option ℚ) (limit : ℚ) : Bool :=
  match slip with
  | none => false
  | some v => if v ≠ 0 ∧ v > limit then true else false

/-- `RiskManager._check_sufficient_balance`; a balance dict maps an asset
to its `free` amount (the only field the source reads, default `0`). -/
def checkSufficientBalance (params : RiskParameters) (opp : Opportunity)
    (buyBalance sellBalance : List (String × ℚ)) : Bool :=
  let symbolParts := (opp.symbol.replace "/" "").replace "-" ""
  let baseAsset := (symbolParts.replace "USDT" "").replace "USD" ""
  let quoteAsset := if strContains symbolParts "USDT" then "USDT" else "USD"
  let quoteBalance := dictGetD buyBalance quoteAsset 0
  let requiredQuote := opp.recommendedSize * opp.buyPrice
  if quoteBalance < requiredQuote + params.minExchangeBalance then false
  else
    let baseBalance := dictGetD sellBalance baseAsset 0
    let requiredBase := opp.recommendedSize
    if baseBalance < requiredBase then false
    else true

/-- `RiskManager.validate_opportunity` in state-passing form: every one of
the thirteen exit points returns the risk state the method was entered
with, because the source only reads `self`.  `activePositions` stands for
`position_manager.get_active_positions()` and `now` for
`datetime.now()`. -/
def validateOpportunity (params : RiskParameters) (s : RiskState)
    (now : ℚ) (opp : Opportunity)
    (activePositions : List ArbitragePosition)
    (balances : List (String × List (String × ℚ))) :
    (Bool × RejectReason) × RiskState :=
  if opp.recommendedSize * opp.buyPrice > params.maxPositionSize then
    ((false, RejectReason.positionSizeTooLarge), s)
  else if (activePositions.filter (fun p => p.symbol = opp.symbol)).length ≥
      params.maxPositionsPerSymbol then
    ((false, RejectReason.tooManyPositionsForSymbol), s)
  else if activePositions.length ≥ params.maxTotalPositions then
    ((false, RejectReason.tooManyTotalPositions), s)
  else if symbolExposureSum s + opp.recommendedSize * opp.buyPrice >
      params.maxTotalExposure then
    ((false, RejectReason.totalExposureLimitExceeded), s)
  else if dictGetD s.exchangeExposure opp.buyExchange 0 +
        opp.recommendedSize * opp.buyPrice > params.maxExchangeExposure ∨
      dictGetD s.exchangeExposure opp.sellExchange 0 +
        opp.recommendedSize * opp.buyPrice > params.maxExchangeExposure then
    ((false, RejectReason.exchangeExposureLimitExceeded), s)
  else if slippageFlag opp.slippageBuy params.maxSlippagePercentage then
    ((false, RejectReason.buySlippageTooHigh), s)
  else if slippageFlag opp.slippageSell params.maxSlippagePercentage then
    ((false, RejectReason.sellSlippageTooHigh), s)
  else if opp.netSpread < params.minNetSpread then
    ((false, RejectReason.netSpreadTooLow), s)
  else if (match dictGet s.lastTradeTime opp.symbol with
           | some lastTrade =>
             decide (now - lastTrade < params.cooldownPeriod)
           | none => false) then
    ((false, RejectReason.cooldownActive), s)
  else if s.dailyPnl ≤ -params.maxDailyLoss then
    ((false, RejectReason.dailyLossLimitReached), s)
  else if s.maxDrawdownToday ≥ params.maxDrawdown then
    ((false, RejectReason.maxDrawdownReached), s)
  else if opp.symbol ∈ s.blockedSymbols ∨
      opp.buyExchange ∈ s.blockedExchanges ∨
      opp.sellExchange ∈ s.blockedExchanges then
    ((false, RejectReason.symbolOrExchangeBlocked), s)
  else if ¬ checkSufficientBalance params opp
      (dictGetD balances opp.buyExchange [])
      (dictGetD balances opp.sellExchange []) then
    ((false, RejectReason.insufficientBalance), s)
  else
    ((true, RejectReason.riskCheckPassed), s)

/-- Bitget ticker frame after the `Decimal(str(data.get(..., 0)))`
conversions of `_parse_ticker_data` (`src/exchanges/bitget.py`). -/
structure BitgetTickerData where
  lastPr : ℚ := 0
  bidPr : ℚ := 0
  askPr : ℚ := 0
  baseVolume : ℚ := 0
  ts : ℕ := 0
deriving DecidableEq, Repr

/-- `BitgetExchange._parse_ticker_data`, threading the
`_last_ticker_times` rate-limit map.  A crossed frame is dropped only
when `ask > 0`; no positivity check is made on bid or ask. -/
def parseTickerData (lastTickerTimes : List (String × ℚ))
    (symbol : String) (d : BitgetTickerData) :
    Option Ticker × List (String × ℚ) :=
  if d.lastPr ≤ 0 then (none, lastTickerTimes)
  else if d.bidPr > d.askPr ∧ d.askPr > 0 then (none, lastTickerTimes)
  else if (match dictGet lastTickerTimes ("ticker_" ++ symbol) with
      | some t => decide ((d.ts : ℚ) / 1000 - t < 1/2)
      | none => false) then (none, lastTickerTimes)
  else
    (some { symbol := symbol, bid := d.bidPr, ask := d.askPr,
            last := d.lastPr, markPrice := d.lastPr,
            volume24h := some d.baseVolume, timestamp := d.ts },
     dictSet lastTickerTimes ("ticker_" ++ symbol) ((d.ts : ℚ) / 1000))

/-- Bitget order-book frame: levels are `[price, size]` string pairs,
already converted to `ℚ`. -/
structure BitgetBookData where
  bids : List (List ℚ) := []
  asks : List (List ℚ) := []
  ts : ℕ := 0
deriving DecidableEq, Repr

/-- `Decimal(str(levels[0][0])) if levels[0] else Decimal("0")`. -/
def headPrice (levels : List (List ℚ)) : ℚ :=
  match levels with
  | [] => 0
  | level :: _ =>
    match level with
    | [] => 0
    | p :: _ => p

/-- `BitgetExchange._parse_orderbook_data`. -/
def parseOrderbookData (lastOrderbookTimes : List (String × ℚ))
    (symbol : String) (d : BitgetBookData) :
    Option Ticker × List (String × ℚ) :=
  if d.bids = [] ∨ d.asks = [] then (none, lastOrderbookTimes)
  else if headPrice d.bids > headPrice d.asks ∧ headPrice d.asks > 0 then
    (none, lastOrderbookTimes)
  else if (match dictGet lastOrderbookTimes ("orderbook_" ++ symbol) with
      | some t => decide ((d.ts : ℚ) / 1000 - t < 1/5)
      | none => false) then (none, lastOrderbookTimes)
  else
    (some { symbol := symbol, bid := headPrice d.bids,
            ask := headPrice d.asks,
            last := (headPrice d.bids + headPrice d.asks) / 2,
            markPrice := (headPrice d.bids + headPrice d.asks) / 2,
            timestamp := d.ts },
     dictSet lastOrderbookTimes ("orderbook_" ++ symbol) ((d.ts : ℚ) / 1000))

/-- `BitgetExchange._parse_trade_data` (list-form frame already split
into price, size, timestamp). -/
def parseTradeData (lastTradeTimes : List (String × ℚ))
    (symbol : String) (price size : ℚ) (ts : ℕ) :
    Option Ticker × List (String × ℚ) :=
  if price ≤ 0 then (none, lastTradeTimes)
  else if (match dictGet lastTradeTimes ("trade_" ++ symbol) with
      | some t => decide ((ts : ℚ) / 1000 - t < 1/10)
      | none => false) then (none, lastTradeTimes)
  else
    (some { symbol := symbol, bid := price - price * (5/10000) / 2,
            ask := price + price * (5/10000) / 2, last := price,
            markPrice := price, volume24h := some size, timestamp := ts },
     dictSet lastTradeTimes ("trade_" ++ symbol) ((ts : ℚ) / 1000))

/-- The bid/ask view of a quote as `price_logger.py` reads it: either
field may be `None` at runtime. -/
structure LoggedTicker where
  bid : Option ℚ := none
  ask : Option ℚ := none
deriving DecidableEq, Repr

/-- `PriceLogger._has_price_changed` (`price_logger.py`): decides whether
the delta recorder writes a quote for `(exchange, symbol)`. -/
def hasPriceChanged
    (lastSavedPrices : List (String × List (String × LoggedTicker)))
    (threshold : ℚ) (exchange symbol : String) (t : LoggedTicker) : Bool :=
  match dictGet lastSavedPrices exchange with
  | none => true
  | some symbolMap =>
    match dictGet symbolMap symbol with
    | none => true
    | some lastTicker =>
      match t.bid, t.ask with
      | some b, some a =>
        match lastTicker.bid, lastTicker.ask with
        | some lb, some la =>
          if |b - lb| / lb > threshold then true
          else if |a - la| / la > threshold then true
          else false
        | _, _ => true
      | _, _ => true

/-- The quote stored for `(symbol, exchange)` in a detector price cache. -/
def slotGet (cache : List (String × List (String × Ticker)))
    (symbol exchange : String) : Option Ticker :=
  dictGet (dictGetD cache symbol []) exchange

/-- Concrete opportunity used for the `open_position` scenarios. -/
def c1Opp : Opportunity :=
  { id := 1, buyExchange := "binance", sellExchange := "bybit",
    symbol := "BTC/USDT", spreadPercentage := 1, expectedProfit := 100,
    buyPrice := 100, sellPrice := 101, recommendedSize := 1 }

/-- Long leg: fully filled for `1.0`. -/
def c1LongOrder : Order :=
  { id := "L1", symbol := "BTC/USDT", side := OrderSide.buy,
    type := "market", price := some 100, quantity := 1, filled := 1,
    status := OrderStatus.filled }

/-- Short leg: reports FILLED but with filled size `0.7`. -/
def c1ShortOrder : Order :=
  { id := "S1", symbol := "BTC/USDT", side := OrderSide.sell,
    type := "market", price := some 101, quantity := 1, filled := 7/10,
    status := OrderStatus.filled }

/-- Concrete position (size 1, long fill price 100) used for the
risk-state exposure scenarios. -/
def c2PosLongOrder : Order :=
  { id := "L2", symbol := "BTC/USDT", side := OrderSide.buy,
    type := "market", price := some 100, quantity := 1 }

def c2Pos : ArbitragePosition :=
  { id := "p1", opportunityId := 1, symbol := "BTC/USDT",
    longExchange := "binance", shortExchange := "bybit", size := 1,
    entrySpread := 1, longOrder := some c2PosLongOrder }

/-- Stored quote with the newer timestamp for the stale-write scenario. -/
def c7Stored : Ticker :=
  { symbol := "BTC", bid := 100, ask := 101, last := 100,
    markPrice := 100, timestamp := 10 }

/-- Incoming quote with an older timestamp than `c7Stored`. -/
def c7Stale : Ticker :=
  { symbol := "BTC", bid := 90, ask := 91, last := 90,
    markPrice := 90, timestamp := 5 }

/-- Cache already holding `c7Stored` under `("BTC", "bybit")`. -/
def c7Cache : List (String × List (String × Ticker)) :=
  updatePriceCache [] "bybit" c7Stored

/-- Bitget ticker frame with `bidPr > askPr` but `askPr = 0`: the
crossed-quote guard does not fire because it also requires `askPr > 0`. -/
def c5BadFrame : BitgetTickerData :=
  { lastPr := 1, bidPr := 2, askPr := 0, baseVolume := 0, ts := 0 }

/-- The ticker the parser emits for `c5BadFrame`: crossed (bid 2 > ask 0). -/
def c5BadTicker : Ticker :=
  { symbol := "BTC", bid := 2, ask := 0, last := 1, markPrice := 1,
    volume24h := some 0, timestamp := 0 }

/-- A well-formed Bitget ticker frame. -/
def c5GoodFrame : BitgetTickerData :=
  { lastPr := 1, bidPr := 1, askPr := 2, baseVolume := 0, ts := 0 }

/-- The ticker the parser emits for `c5GoodFrame`. -/
def c5GoodTicker : Ticker :=
  { symbol := "S", bid := 1, ask := 2, last := 1, markPrice := 1,
    volume24h := some 0, timestamp := 0 }

/-- Last saved quote for the delta-recorder scenario. -/
def c9LastTicker : LoggedTicker := { bid := some 100, ask := some 101 }

/-- Saved-price map holding `c9LastTicker` under `("bitget", "BTC")`. -/
def c9LastSaved : List (String × List (String × LoggedTicker)) :=
  [("bitget", [("BTC", c9LastTicker)])]

/-- Incoming quote whose bid moved by 2% since `c9LastTicker`. -/
def c9NewTicker : LoggedTicker := { bid := some 102, ask := some 103 }

/-- Buy-side ticker for the detector threshold scenario (ask 100). -/
def c3BuyTicker : Ticker :=
  { symbol := "BTC/USDT", bid := 99, ask := 100, last := 100,
    markPrice := 100 }

/-- Sell-side ticker for the detector threshold scenario (bid 101). -/
def c3SellTicker : Ticker :=
  { symbol := "BTC/USDT", bid := 101, ask := 102, last := 101,
    markPrice := 101 }

/-- The fields of an emitted opportunity that identify its directed pair
and spread. -/
def oppTriple (o : Opportunity) : String × String × ℚ :=
  (o.buyExchange, o.sellExchange, o.spreadPercentage)

/-- The directed exchange pairs in the order `check_arbitrage` enumerates
them: for `i < j` first `(ex_i, ex_j)` then `(ex_j, ex_i)`. -/
def directedPairs :
    List (String × Ticker) → List ((String × Ticker) × (String × Ticker))
  | [] => []
  | x :: rest => (rest.flatMap fun y => [(x, y), (y, x)]) ++ directedPairs rest

/-- Specification-side emission: the triples of the qualifying directed
pairs, in enumeration order. -/
def emittedTriples (p : DetectorParams)
    (pairs : List ((String × Ticker) × (String × Ticker))) :
    List (String × String × ℚ) :=
  pairs.filterMap fun bp =>
    if p.minSpreadThreshold ≤ (bp.2.2.bid - bp.1.2.ask) / bp.1.2.ask * 100 ∧
        0 < calcOptimalSize p bp.1.2 bp.2.2 ∧
        p.minProfitThreshold ≤
          (bp.2.2.bid - bp.1.2.ask) * calcOptimalSize p bp.1.2 bp.2.2 then
      some (bp.1.1, bp.2.1, (bp.2.2.bid - bp.1.2.ask) / bp.1.2.ask * 100)
    else none

/-- Exchange A quote for the ordering counterexample. -/
def c4TickerA : Ticker :=
  { symbol := "BTC", bid := 99, ask := 100, last := 100, markPrice := 100 }

/-- Exchange B quote for the ordering counterexample. -/
def c4TickerB : Ticker :=
  { symbol := "BTC", bid := 101, ask := 102, last := 101, markPrice := 101 }

/-- Exchange C quote for the ordering counterexample. -/
def c4TickerC : Ticker :=
  { symbol := "BTC", bid := 110, ask := 111, last := 110, markPrice := 110 }

/-- Cache with three exchanges whose qualifying spreads arrive out of
descending order. -/
def c4Cache : List (String × List (String × Ticker)) :=
  [("BTC", [("exA", c4TickerA), ("exB", c4TickerB), ("exC", c4TickerC)])]

/-- Two-level ask book for the slippage scenario (liquidity 3). -/
def c6Book : OrderBook :=
  { symbol := "BTC", bids := [], asks := [(100, 1), (101, 2)] }

/-- Risk state after one accepted trade on BTC/USDT at `t = 0`. -/
def c8State : RiskState :=
  { currentExposure := [("BTC/USDT", 100)],
    exchangeExposure := [("binance", 100), ("bybit", 100)],
    lastTradeTime := [("BTC/USDT", 0)] }

/-- Second equally-qualifying opportunity on the same symbol. -/
def c8Opp : Opportunity :=
  { id := 2, buyExchange := "binance", sellExchange := "bybit",
    symbol := "BTC/USDT", spreadPercentage := 1, expectedProfit := 100,
    buyPrice := 100, sellPrice := 101, recommendedSize := 1 }

/-! ## Association-list lemmas -/

theorem dictGet_dictSet_self {α : Type} (l : List (String × α))
    (k : String) (v : α) : dictGet (dictSet l k v) k = some v := by
  induction l with
  | nil => simp [dictSet, dictGet]
  | cons hd tl ih =>
    obtain ⟨k2, v2⟩ := hd
    by_cases h : k2 = k
    · simp [dictSet, dictGet, h]
    · simp [dictSet, dictGet, h, ih]

theorem dictGet_dictSet_ne {α : Type} (l : List (String × α))
    (k k2 : String) (v : α) (h : k2 ≠ k) :
    dictGet (dictSet l k v) k2 = dictGet l k2 := by
  induction l with
  | nil => simp [dictSet, dictGet, Ne.symm h]
  | cons hd tl ih =>
    obtain ⟨k3, v3⟩ := hd
    by_cases h3 : k3 = k
    · simp [dictSet, dictGet, h3, Ne.symm h]
    · simp [dictSet, dictGet, h3, ih]

theorem dictGetD_dictSet_self {α : Type} (l : List (String × α))
    (k : String) (v d : α) : dictGetD (dictSet l k v) k d = v := by
  induction l with
  | nil => simp [dictSet, dictGetD]
  | cons hd tl ih =>
    obtain ⟨k2, v2⟩ := hd
    by_cases h : k2 = k
    · simp [dictSet, dictGetD, h]
    · simp [dictSet, dictGetD, h, ih]

theorem dictGetD_dictSet_ne {α : Type} (l : List (String × α))
    (k k2 : String) (v d : α) (h : k2 ≠ k) :
    dictGetD (dictSet l k v) k2 d = dictGetD l k2 d := by
  induction l with
  | nil => simp [dictSet, dictGetD, Ne.symm h]
  | cons hd tl ih =>
    obtain ⟨k3, v3⟩ := hd
    by_cases h3 : k3 = k
    · simp [dictSet, dictGetD, h3, Ne.symm h]
    · simp [dictSet, dictGetD, h3, ih]

theorem dictSum_dictSet (l : List (String × ℚ)) (k : String) (w : ℚ) :
    dictSum (dictSet l k w) = dictSum l - dictGetD l k 0 + w := by
  induction l with
  | nil => simp [dictSet, dictSum, dictGetD]
  | cons hd tl ih =>
    obtain ⟨k2, v2⟩ := hd
    by_cases h : k2 = k
    · simp [dictSet, dictSum, dictGetD, h]
      ring
    · simp only [dictSet, dictGetD, if_neg h, dictSum, List.map_cons,
        List.sum_cons] at ih ⊢
      rw [ih]
      ring

theorem dictSum_dictAdd (l : List (String × ℚ)) (k : String) (v : ℚ) :
    dictSum (dictSet l k (dictGetD l k 0 + v)) = dictSum l + v := by
  rw [dictSum_dictSet]; ring

theorem dictSum_dictSub (l : List (String × ℚ)) (k : String) (v : ℚ) :
    dictSum (dictSet l k (dictGetD l k 0 - v)) = dictSum l - v := by
  rw [dictSum_dictSet]; ring

/-! ## Claims -/

/-- C1: falsified as stated.  With the long leg FILLED at `1.0` and the
short leg FILLED at `0.7`, `open_position` still marks the position OPEN
even though the filled sizes differ, and attaches only the two original
orders (no correcting order). -/
theorem c1_counterexample :
    (openPositionResult "pos-1" 0 c1Opp c1LongOrder c1ShortOrder).status =
      PositionStatus.open ∧
    c1LongOrder.filled ≠ c1ShortOrder.filled ∧
    (openPositionResult "pos-1" 0 c1Opp c1LongOrder c1ShortOrder).longOrder =
      some c1LongOrder ∧
    (openPositionResult "pos-1" 0 c1Opp c1LongOrder c1ShortOrder).shortOrder =
      some c1ShortOrder := by
  refine ⟨?_, ?_, ?_, ?_⟩
  · simp [openPositionResult, orderFilledOk, c1LongOrder, c1ShortOrder]
  · simp only [c1LongOrder, c1ShortOrder]
    norm_num
  · simp [openPositionResult, orderFilledOk, c1LongOrder, c1ShortOrder]
  · simp [openPositionResult, orderFilledOk, c1LongOrder, c1ShortOrder]

/-- C1 (amended): `open_position` marks the position OPEN exactly when
both legs report FILLED or PARTIALLY_FILLED; filled sizes are never
compared, no reconciliation order is issued (the position carries exactly
the two placed orders), and otherwise the position is FAILED with error
message "Orders not filled". -/
theorem c1_amended (positionId : String) (now : ℚ) (opp : Opportunity)
    (lo so : Order) :
    (openPositionResult positionId now opp lo so).status =
      (if orderFilledOk lo && orderFilledOk so then PositionStatus.open
       else PositionStatus.failed) ∧
    (openPositionResult positionId now opp lo so).longOrder = some lo ∧
    (openPositionResult positionId now opp lo so).shortOrder = some so ∧
    (openPositionResult positionId now opp lo so).errorMessage =
      (if orderFilledOk lo && orderFilledOk so then none
       else some "Orders not filled") := by
  cases h : orderFilledOk lo && orderFilledOk so <;>
    simp [openPositionResult, h]

/-- C2: falsified as stated.  One `update_position_opened` from the
initial state adds the position value once to the symbol exposures but
twice to the venue exposures (long and short exchange), so the two sums
differ at a reachable state. -/
theorem c2_counterexample :
    RiskReachable (updatePositionOpened initialRiskState 0 c2Pos) ∧
    venueExposureSum (updatePositionOpened initialRiskState 0 c2Pos) ≠
      symbolExposureSum (updatePositionOpened initialRiskState 0 c2Pos) := by
  refine ⟨RiskReachable.opened initialRiskState 0 c2Pos RiskReachable.init, ?_⟩
  simp [venueExposureSum, symbolExposureSum, updatePositionOpened,
    initialRiskState, positionValue, c2Pos, c2PosLongOrder, dictSet,
    dictGetD, dictSum]

/-- C2 (amended): at every reachable risk state the venue exposure sum is
twice the symbol exposure sum.  Reachability admits opened and
daily-reset steps freely, and close steps whose zero-clamps are inactive
(every close of a still-open previously opened position is of this
form). -/
theorem c2_amended (s : RiskState) (h : RiskReachable s) :
    venueExposureSum s = 2 * symbolExposureSum s := by
  induction h with
  | init =>
    simp [initialRiskState, venueExposureSum, symbolExposureSum, dictSum]
  | opened s now p hs ih =>
    simp only [updatePositionOpened, venueExposureSum, symbolExposureSum,
      dictSum_dictAdd] at ih ⊢
    linarith
  | closed s p hs hexact ih =>
    rw [← hexact]
    simp only [updatePositionClosedExact, venueExposureSum,
      symbolExposureSum, dictSum_dictSub] at ih ⊢
    linarith
  | reset s hs ih =>
    simpa [resetDailyStats, venueExposureSum, symbolExposureSum] using ih

/-- C2 witness: the amended invariant applied at a concrete reachable
state (one opened position). -/
theorem c2_amended_witness :
    venueExposureSum (updatePositionOpened initialRiskState 5 c2Pos) =
      2 * symbolExposureSum (updatePositionOpened initialRiskState 5 c2Pos) :=
  c2_amended (updatePositionOpened initialRiskState 5 c2Pos)
    (RiskReachable.opened initialRiskState 5 c2Pos RiskReachable.init)

/-- C7: falsified as stated.  A write whose timestamp (5) is older than
the stored quote's (10) is not ignored: it replaces the stored quote. -/
theorem c7_counterexample :
    c7Stale.timestamp < c7Stored.timestamp ∧
    slotGet (updatePriceCache c7Cache "bybit" c7Stale) "BTC" "bybit" =
      some c7Stale ∧
    c7Stale ≠ c7Stored := by
  refine ⟨by norm_num [c7Stale, c7Stored], ?_, ?_⟩
  · simp [slotGet, updatePriceCache, c7Cache, c7Stored, c7Stale, dictGet,
      dictGetD, dictSet]
  · simp only [c7Stale, c7Stored, ne_eq, Ticker.mk.injEq]
    norm_num

/-- C7 (amended): the cache write is unconditional — the incoming quote
always replaces the `(symbol, venue)` slot, with no timestamp
comparison; every other slot is unchanged in every case. -/
theorem c7_amended (cache : List (String × List (String × Ticker)))
    (exchange : String) (t : Ticker) (sym2 ex2 : String) :
    slotGet (updatePriceCache cache exchange t) t.symbol exchange =
      some t ∧
    (sym2 ≠ t.symbol ∨ ex2 ≠ exchange →
      slotGet (updatePriceCache cache exchange t) sym2 ex2 =
        slotGet cache sym2 ex2) := by
  constructor
  · simp [slotGet, updatePriceCache, dictGetD_dictSet_self,
      dictGet_dictSet_self]
  · rintro (hsym | hex)
    · simp [slotGet, updatePriceCache, dictGetD_dictSet_ne _ _ _ _ _ hsym]
    · by_cases hsym : sym2 = t.symbol
      · subst hsym
        simp [slotGet, updatePriceCache, dictGetD_dictSet_self,
          dictGet_dictSet_ne _ _ _ _ hex]
      · simp [slotGet, updatePriceCache, dictGetD_dictSet_ne _ _ _ _ _ hsym]

/-- C7 witness: the frame part of the amended claim at a concrete slot
(`"ETH"` differs from the written symbol `"BTC"`). -/
theorem c7_amended_witness :
    slotGet (updatePriceCache c7Cache "bybit" c7Stale) "ETH" "bybit" =
      slotGet c7Cache "ETH" "bybit" :=
  (c7_amended c7Cache "bybit" c7Stale "ETH" "bybit").2 (Or.inl (by decide))

/-- C10: falsified as stated.  The clause that the listed fields change
only through the opened/closed/reset callbacks is wrong for the blocked
lists: `block_symbol` and `block_exchange`, which are none of those
callbacks, mutate them (the bot calls `block_exchange` on connection
failure). -/
theorem c10_counterexample :
    (blockSymbol initialRiskState "BTC/USDT").blockedSymbols =
      ["BTC/USDT"] ∧
    initialRiskState.blockedSymbols = [] ∧
    (blockExchange initialRiskState "bitget").blockedExchanges =
      ["bitget"] ∧
    initialRiskState.blockedExchanges = [] := by
  refine ⟨?_, rfl, ?_, rfl⟩ <;>
    simp [blockSymbol, blockExchange, initialRiskState]

set_option maxHeartbeats 1000000 in
/-- C10 (amended): `validate_opportunity` is read-only on the risk
state: in state-passing form every exit point returns the entry state
unchanged — no field, the blocked lists included, is modified — whether
the opportunity is accepted or rejected.  (The original claim's clause
that those fields change only through the opened/closed/reset callbacks
is dropped: `block_symbol`/`block_exchange` also mutate the blocked
lists.) -/
theorem c10_validate_readonly (params : RiskParameters) (s : RiskState)
    (now : ℚ) (opp : Opportunity)
    (activePositions : List ArbitragePosition)
    (balances : List (String × List (String × ℚ))) :
    (validateOpportunity params s now opp activePositions balances).2 = s := by
  unfold validateOpportunity
  simp only [apply_ite
    (Prod.snd : (Bool × RejectReason) × RiskState → RiskState), ite_self]

/-- C5: falsified as stated.  The Bitget ticker parser drops a crossed
frame only when `ask > 0` and never checks bid/ask positivity, so the
frame `bidPr = 2, askPr = 0, lastPr = 1` is emitted as a quote with
`bid > ask` and `ask = 0`. -/
theorem c5_counterexample :
    (parseTickerData [] "BTC" c5BadFrame).1 = some c5BadTicker ∧
    c5BadTicker.bid > c5BadTicker.ask ∧
    ¬ (0 : ℚ) < c5BadTicker.ask ∧
    c5BadFrame.bidPr > c5BadFrame.askPr := by
  refine ⟨?_, ?_, ?_, ?_⟩
  · norm_num [parseTickerData, c5BadFrame, c5BadTicker, dictGet]
  · norm_num [c5BadTicker]
  · norm_num [c5BadTicker]
  · norm_num [c5BadFrame]

/-- C5 (amended): quotes emitted by the Bitget parsers satisfy
`bid ≤ ask` only under the proviso `ask > 0` (the crossed-quote guard is
skipped when `ask ≤ 0`), the ticker parser guarantees `last > 0` but not
bid/ask positivity, a crossed frame with positive ask is dropped, and
the synthetic trade-parser quotes always satisfy `0 < bid ≤ ask`. -/
theorem c5_amended :
    (∀ times sym d t times2,
      parseTickerData times sym d = (some t, times2) →
      0 < t.last ∧ (0 < t.ask → t.bid ≤ t.ask)) ∧
    (∀ (times : List (String × ℚ)) (sym : String) (d : BitgetTickerData),
      d.bidPr > d.askPr → 0 < d.askPr →
      (parseTickerData times sym d).1 = none) ∧
    (∀ times sym d t times2,
      parseOrderbookData times sym d = (some t, times2) →
      0 < t.ask → t.bid ≤ t.ask) ∧
    (∀ times sym price size ts t times2,
      parseTradeData times sym price size ts = (some t, times2) →
      0 < t.bid ∧ t.bid ≤ t.ask) := by
  refine ⟨?_, ?_, ?_, ?_⟩
  · intro times sym d t times2 h
    unfold parseTickerData at h
    split_ifs at h with h1 h2 h3
    · simp at h
    · simp at h
    · simp at h
    · simp only [Prod.mk.injEq, Option.some.injEq] at h
      obtain ⟨ht, -⟩ := h
      subst ht
      push_neg at h1 h2
      refine ⟨by dsimp only; exact h1, ?_⟩
      intro hask
      dsimp only at hask ⊢
      by_contra hcross
      push_neg at hcross
      have hle := h2 hcross
      linarith
  · intro times sym d hcross hask
    unfold parseTickerData
    split_ifs with h1 h2 h3
    · rfl
    · rfl
    · rfl
    · exact absurd ⟨hcross, hask⟩ h2
  · intro times sym d t times2 h hask
    unfold parseOrderbookData at h
    split_ifs at h with h1 h2 h3
    · simp at h
    · simp at h
    · simp at h
    · simp only [Prod.mk.injEq, Option.some.injEq] at h
      obtain ⟨ht, -⟩ := h
      subst ht
      push_neg at h2
      dsimp only at hask ⊢
      by_contra hcross
      push_neg at hcross
      have hle := h2 hcross
      linarith
  · intro times sym price size ts t times2 h
    unfold parseTradeData at h
    split_ifs at h with h1 h2
    · simp at h
    · simp at h
    · simp only [Prod.mk.injEq, Option.some.injEq] at h
      obtain ⟨ht, -⟩ := h
      subst ht
      push_neg at h1
      constructor
      · dsimp only
        linarith
      · dsimp only
        linarith

/-- C5 witness: the amended invariant applied to a concrete emitted
ticker. -/
theorem c5_amended_witness :
    0 < c5GoodTicker.last ∧ (0 < c5GoodTicker.ask → c5GoodTicker.bid ≤ c5GoodTicker.ask) :=
  c5_amended.1 [] "S" c5GoodFrame c5GoodTicker [("ticker_" ++ "S", 0)]
    (by norm_num [parseTickerData, c5GoodFrame, c5GoodTicker, dictGet, dictSet])

/-- C9: in delta mode the recorder writes for a seen `(exchange, symbol)`
with fully populated quotes exactly when the relative bid or ask change
strictly exceeds the threshold, and always writes the first quote of an
`(exchange, symbol)`.  Positivity of the stored prices keeps the model
inside the domain where the Python float division is defined. -/
theorem c9_delta_mode :
    (∀ lastSaved (threshold : ℚ) (exchange symbol : String)
        (t lastTicker : LoggedTicker)
        (symbolMap : List (String × LoggedTicker)) (b a lb la : ℚ),
      dictGet lastSaved exchange = some symbolMap →
      dictGet symbolMap symbol = some lastTicker →
      t.bid = some b → t.ask = some a →
      lastTicker.bid = some lb → lastTicker.ask = some la →
      0 < lb → 0 < la →
      (hasPriceChanged lastSaved threshold exchange symbol t = true ↔
        |b - lb| / lb > threshold ∨ |a - la| / la > threshold)) ∧
    (∀ lastSaved (threshold : ℚ) (exchange symbol : String)
        (t : LoggedTicker) (symbolMap : List (String × LoggedTicker)),
      (dictGet lastSaved exchange = none ∨
        (dictGet lastSaved exchange = some symbolMap ∧
         dictGet symbolMap symbol = none)) →
      hasPriceChanged lastSaved threshold exchange symbol t = true) := by
  constructor
  · intro lastSaved threshold exchange symbol t lastTicker symbolMap b a lb la
      hmap hsym hb ha hlb hla hlbpos hlapos
    simp only [hasPriceChanged, hmap, hsym, hb, ha, hlb, hla]
    split_ifs with hBid hAsk
    · simp [hBid]
    · simp [hAsk]
    · simp [hBid, hAsk]
  · intro lastSaved threshold exchange symbol t symbolMap h
    rcases h with h | ⟨hmap, hsym⟩
    · simp [hasPriceChanged, h]
    · simp [hasPriceChanged, hmap, hsym]

/-- C9 witness: a 2% bid move against a `1e-5` threshold is recorded. -/
theorem c9_delta_mode_witness :
    hasPriceChanged c9LastSaved (1/100000) "bitget" "BTC" c9NewTicker = true :=
  (c9_delta_mode.1 c9LastSaved (1/100000) "bitget" "BTC" c9NewTicker
    c9LastTicker [("BTC", c9LastTicker)] 102 103 100 101
    (by simp [c9LastSaved, dictGet]) (by simp [c9LastTicker, dictGet])
    (by simp [c9NewTicker]) (by simp [c9NewTicker])
    (by simp [c9LastTicker]) (by simp [c9LastTicker])
    (by norm_num) (by norm_num)).mpr (Or.inl (by norm_num))

/-- C3: `_check_opportunity` emits for a directed pair exactly when the
spread percentage reaches the threshold (equality qualifies), the
recommended size is positive and the expected profit reaches the profit
floor; under a positive buy ask and a positive spread threshold this is
equivalent to the spec conjunction including `sell.bid > buy.ask`, and
every emitted opportunity records `sellPrice > buyPrice`,
`spreadPct ≥ minSpreadPct` and `expectedProfit ≥ minProfitUsd`. -/
theorem c3_check_opportunity (p : DetectorParams) (ctr : ℕ)
    (bx : String) (bT : Ticker) (sx : String) (sT : Ticker) (sym : String)
    (hask : 0 < bT.ask) (hmin : 0 < p.minSpreadThreshold) :
    ((checkOpportunity p ctr bx bT sx sT sym).1.isSome ↔
      (bT.ask < sT.bid ∧
       p.minSpreadThreshold ≤ (sT.bid - bT.ask) / bT.ask * 100 ∧
       0 < calcOptimalSize p bT sT ∧
       p.minProfitThreshold ≤
         (sT.bid - bT.ask) * calcOptimalSize p bT sT)) ∧
    (∀ o, (checkOpportunity p ctr bx bT sx sT sym).1 = some o →
      o.buyPrice < o.sellPrice ∧
      p.minSpreadThreshold ≤ o.spreadPercentage ∧
      p.minProfitThreshold ≤ o.expectedProfit) := by
  have hbid : p.minSpreadThreshold ≤ (sT.bid - bT.ask) / bT.ask * 100 →
      bT.ask < sT.bid := by
    intro hge
    have h100 : 0 < (sT.bid - bT.ask) / bT.ask * 100 :=
      lt_of_lt_of_le hmin hge
    have hdiv : 0 < (sT.bid - bT.ask) / bT.ask := by linarith
    rcases div_pos_iff.mp hdiv with ⟨hnum, -⟩ | ⟨-, hden⟩
    · linarith
    · linarith
  constructor
  · constructor
    · intro hsome
      unfold checkOpportunity at hsome
      split_ifs at hsome with h1 h2 h3
      · simp at hsome
      · simp at hsome
      · simp at hsome
      · push_neg at h1 h2 h3
        exact ⟨hbid h1, h1, h2, h3⟩
    · rintro ⟨-, hge, hsz, hprof⟩
      unfold checkOpportunity
      rw [if_neg (not_lt.mpr hge), if_neg (not_le.mpr hsz),
        if_neg (not_lt.mpr hprof)]
      simp
  · intro o ho
    unfold checkOpportunity at ho
    split_ifs at ho with h1 h2 h3
    simp only [Prod.mk.injEq, Option.some.injEq] at ho
    subst ho
    push_neg at h1 h2 h3
    exact ⟨hbid h1, h1, h3⟩

/-- C3 witness: the detection criterion at a concrete qualifying pair
(spread 1% against the default 0.5% threshold). -/
theorem c3_check_opportunity_witness :
    ((checkOpportunity {} 0 "binance" c3BuyTicker "bybit" c3SellTicker
        "BTC/USDT").1.isSome ↔
      (c3BuyTicker.ask < c3SellTicker.bid ∧
       DetectorParams.minSpreadThreshold {} ≤
         (c3SellTicker.bid - c3BuyTicker.ask) / c3BuyTicker.ask * 100 ∧
       0 < calcOptimalSize {} c3BuyTicker c3SellTicker ∧
       DetectorParams.minProfitThreshold {} ≤
         (c3SellTicker.bid - c3BuyTicker.ask) *
           calcOptimalSize {} c3BuyTicker c3SellTicker)) ∧
    (∀ o, (checkOpportunity {} 0 "binance" c3BuyTicker "bybit" c3SellTicker
        "BTC/USDT").1 = some o →
      o.buyPrice < o.sellPrice ∧
      DetectorParams.minSpreadThreshold {} ≤ o.spreadPercentage ∧
      DetectorParams.minProfitThreshold {} ≤ o.expectedProfit) :=
  c3_check_opportunity {} 0 "binance" c3BuyTicker "bybit" c3SellTicker
    "BTC/USDT" (by norm_num [c3BuyTicker]) (by norm_num)

/-- Liquidity of a book with non-negative level sizes is non-negative. -/
theorem totalVolume_nonneg (book : List (ℚ × ℚ))
    (h : ∀ pv ∈ book, 0 ≤ pv.2) : 0 ≤ totalVolume book := by
  induction book with
  | nil => simp [totalVolume]
  | cons hd tl ih =>
    have h1 := h hd (List.mem_cons_self hd tl)
    have h2 := ih (fun pv hpv => h pv (List.mem_cons_of_mem hd hpv))
    simp only [totalVolume, List.map_cons, List.sum_cons]
    simp only [totalVolume] at h2
    linarith

/-- The residual of the level walk is the unfilled part of the request:
`max (size - liquidity) 0`. -/
theorem walkBook_snd (book : List (ℚ × ℚ)) : ∀ (r c : ℚ), 0 ≤ r →
    (∀ pv ∈ book, 0 ≤ pv.2) →
    (walkBook book r c).2 = max (r - totalVolume book) 0 := by
  induction book with
  | nil =>
    intro r c hr hv
    simp only [walkBook, totalVolume, List.map_nil, List.sum_nil, sub_zero]
    exact (max_eq_left hr).symm
  | cons hd tl ih =>
    obtain ⟨p, v⟩ := hd
    intro r c hr hv
    have hv0 : 0 ≤ v := hv (p, v) (List.mem_cons_self _ _)
    have hvtl : ∀ pv ∈ tl, 0 ≤ pv.2 :=
      fun pv hpv => hv pv (List.mem_cons_of_mem _ hpv)
    have htl : 0 ≤ (List.map Prod.snd tl).sum := totalVolume_nonneg tl hvtl
    by_cases h0 : r ≤ 0
    · have hr0 : r = 0 := le_antisymm h0 hr
      subst hr0
      simp only [walkBook, if_pos le_rfl, totalVolume, List.map_cons,
        List.sum_cons]
      exact (max_eq_right (by linarith)).symm
    · simp only [walkBook, if_neg h0]
      rw [ih _ _ (by simp [min_le_left r v]) hvtl]
      simp only [totalVolume, List.map_cons, List.sum_cons]
      rcases le_total r v with hrv | hvr
      · rw [min_eq_left hrv, max_eq_right (by linarith),
          max_eq_right (by linarith)]
      · rw [min_eq_right hvr]
        congr 1
        ring

/-- The accumulated cost of the level walk equals `fillCost`. -/
theorem walkBook_fst (book : List (ℚ × ℚ)) : ∀ (r c : ℚ), 0 ≤ r →
    (walkBook book r c).1 = c + fillCost book r := by
  induction book with
  | nil =>
    intro r c hr
    simp [walkBook, fillCost]
  | cons hd tl ih =>
    obtain ⟨p, v⟩ := hd
    intro r c hr
    by_cases h0 : r ≤ 0
    · simp [walkBook, fillCost, h0]
    · simp only [walkBook, fillCost, if_neg h0]
      rw [ih _ _ (by simp [min_le_left r v])]
      ring

/-- C6: for a positive request against a book side with non-negative
sizes, `_calculate_default_slippage` returns the 999 sentinel exactly
when the walked side holds strictly less liquidity than the request; a
request the book can cover (including exact exhaustion) yields
`|avgFillPrice − bestPrice| / bestPrice · 100`, and one unit beyond the
total liquidity yields the sentinel again. -/
theorem c6_slippage (ob : OrderBook) (side : OrderSide) (size : ℚ)
    (hsize : 0 < size) (hv : ∀ pv ∈ sideOf ob side, 0 ≤ pv.2) :
    (totalVolume (sideOf ob side) < size →
      calculateDefaultSlippage ob side size = 999) ∧
    (size ≤ totalVolume (sideOf ob side) →
      ∃ best rest, sideOf ob side = best :: rest ∧
        calculateDefaultSlippage ob side size =
          |fillCost (sideOf ob side) size / size - best.1| /
            best.1 * 100) ∧
    calculateDefaultSlippage ob side
      (totalVolume (sideOf ob side) + 1) = 999 := by
  have htv : 0 ≤ totalVolume (sideOf ob side) := totalVolume_nonneg _ hv
  rcases hb : sideOf ob side with _ | ⟨⟨bp, bv⟩, rest⟩
  · refine ⟨fun _ => ?_, fun h => ?_, ?_⟩
    · simp [calculateDefaultSlippage, hb]
    · simp only [totalVolume, List.map_nil, List.sum_nil] at h
      linarith
    · simp [calculateDefaultSlippage, hb]
  · rw [hb] at htv hv
    have hsnd : ∀ sz : ℚ, 0 ≤ sz →
        (walkBook ((bp, bv) :: rest) sz 0).2 =
          max (sz - totalVolume ((bp, bv) :: rest)) 0 :=
      fun sz hsz => walkBook_snd _ sz 0 hsz hv
    refine ⟨fun h => ?_, fun h => ?_, ?_⟩
    · simp only [calculateDefaultSlippage, hb]
      rw [if_pos]
      rw [hsnd size hsize.le]
      have : 0 < size - totalVolume ((bp, bv) :: rest) := by linarith
      rw [max_eq_left (by linarith)]
      exact this
    · refine ⟨(bp, bv), rest, rfl, ?_⟩
      simp only [calculateDefaultSlippage, hb]
      rw [if_neg, walkBook_fst _ size 0 hsize.le, zero_add]
      rw [hsnd size hsize.le, max_eq_right (by linarith)]
      exact lt_irrefl 0
    · simp only [calculateDefaultSlippage, hb]
      rw [if_pos]
      rw [hsnd (totalVolume ((bp, bv) :: rest) + 1) (by linarith)]
      rw [max_eq_left (by linarith)]
      linarith

/-- C8: with the preceding seven checks passing, `validate_opportunity`
rejects with the cooldown reason exactly when a last trade time is
recorded for the symbol and `now − lastTradeTime < cooldownPeriod`
(strict, so the exact boundary passes the cooldown rule). -/
theorem c8_cooldown (params : RiskParameters) (s : RiskState) (now : ℚ)
    (opp : Opportunity) (activePositions : List ArbitragePosition)
    (balances : List (String × List (String × ℚ)))
    (h1 : ¬ opp.recommendedSize * opp.buyPrice > params.maxPositionSize)
    (h2 : ¬ (activePositions.filter
        (fun p => p.symbol = opp.symbol)).length ≥
      params.maxPositionsPerSymbol)
    (h3 : ¬ activePositions.length ≥ params.maxTotalPositions)
    (h4 : ¬ symbolExposureSum s + opp.recommendedSize * opp.buyPrice >
      params.maxTotalExposure)
    (h5 : ¬ (dictGetD s.exchangeExposure opp.buyExchange 0 +
          opp.recommendedSize * opp.buyPrice > params.maxExchangeExposure ∨
        dictGetD s.exchangeExposure opp.sellExchange 0 +
          opp.recommendedSize * opp.buyPrice > params.maxExchangeExposure))
    (h6 : slippageFlag opp.slippageBuy params.maxSlippagePercentage = false)
    (h7 : slippageFlag opp.slippageSell params.maxSlippagePercentage = false)
    (h8 : ¬ opp.netSpread < params.minNetSpread) :
    ((validateOpportunity params s now opp activePositions balances).1 =
      (false, RejectReason.cooldownActive) ↔
      ∃ lastTrade, dictGet s.lastTradeTime opp.symbol = some lastTrade ∧
        now - lastTrade < params.cooldownPeriod) := by
  unfold validateOpportunity
  rw [if_neg h1, if_neg h2, if_neg h3, if_neg h4, if_neg h5]
  rw [if_neg (by rw [h6]; exact Bool.false_ne_true)]
  rw [if_neg (by rw [h7]; exact Bool.false_ne_true)]
  rw [if_neg h8]
  split_ifs with hc h9 h10 h11 h12
  · rcases hget : dictGet s.lastTradeTime opp.symbol with _ | lastTrade
    · rw [hget] at hc
      simp at hc
    · rw [hget] at hc
      simp only [decide_eq_true_eq] at hc
      exact iff_of_true rfl ⟨lastTrade, rfl, hc⟩
  all_goals
    refine iff_of_false (by simp) ?_
  all_goals
    rintro ⟨lastTrade, hget, hlt⟩
  all_goals
    rw [hget] at hc
  all_goals
    simp [hlt] at hc

/-- C8 witness: the spec scenario — second qualifying opportunity on the
same symbol 100 s after an accepted trade, default 300 s cooldown — is
rejected with the cooldown reason. -/
theorem c8_cooldown_witness :
    (validateOpportunity {} c8State 100 c8Opp [] []).1 =
      (false, RejectReason.cooldownActive) :=
  (c8_cooldown {} c8State 100 c8Opp [] []
    (by norm_num [c8Opp])
    (by norm_num)
    (by norm_num)
    (by norm_num [c8Opp, c8State, symbolExposureSum, dictSum])
    (by norm_num [c8Opp, c8State, dictGetD])
    (by norm_num [c8Opp, slippageFlag])
    (by norm_num [c8Opp, slippageFlag])
    (by norm_num [c8Opp, Opportunity.netSpread])).mpr
    ⟨0, by simp [c8State, c8Opp, dictGet], by norm_num⟩

/-- C6 witness: one unit beyond the total liquidity of a concrete
two-level book returns the sentinel. -/
theorem c6_slippage_witness :
    calculateDefaultSlippage c6Book OrderSide.buy
      (totalVolume (sideOf c6Book OrderSide.buy) + 1) = 999 :=
  (c6_slippage c6Book OrderSide.buy 2 (by norm_num) (by
    intro pv hpv
    simp [sideOf, c6Book] at hpv
    rcases hpv with h | h <;> subst h <;> norm_num)).2.2

/-- `emittedTriples` distributes over pair-list concatenation. -/
theorem emittedTriples_append (p : DetectorParams)
    (l1 l2 : List ((String × Ticker) × (String × Ticker))) :
    emittedTriples p (l1 ++ l2) =
      emittedTriples p l1 ++ emittedTriples p l2 := by
  simp [emittedTriples, List.filterMap_append]

/-- One `_check_opportunity` call contributes exactly the triple of its
directed pair when the pair qualifies, and nothing otherwise. -/
theorem checkOpportunity_triples (p : DetectorParams) (ctr : ℕ)
    (bx : String) (bT : Ticker) (sx : String) (sT : Ticker) (sym : String) :
    ((checkOpportunity p ctr bx bT sx sT sym).1.toList.map oppTriple) =
    emittedTriples p [((bx, bT), (sx, sT))] := by
  by_cases hC : p.minSpreadThreshold ≤ (sT.bid - bT.ask) / bT.ask * 100 ∧
      0 < calcOptimalSize p bT sT ∧
      p.minProfitThreshold ≤ (sT.bid - bT.ask) * calcOptimalSize p bT sT
  · obtain ⟨ha, hb, hc⟩ := hC
    unfold checkOpportunity
    rw [if_neg (not_lt.mpr ha), if_neg (not_le.mpr hb),
      if_neg (not_lt.mpr hc)]
    simp only [emittedTriples, List.filterMap_cons, List.filterMap_nil]
    rw [if_pos ⟨ha, hb, hc⟩]
    simp [oppTriple]
  · unfold checkOpportunity
    simp only [emittedTriples, List.filterMap_cons, List.filterMap_nil]
    rw [if_neg hC]
    split_ifs with h1 h2 h3
    · simp
    · simp
    · simp
    · exact absurd ⟨not_lt.mp h1, not_le.mp h2, not_lt.mp h3⟩ hC

/-- The inner loop of `check_arbitrage` emits exactly the qualifying
pairs of its exchange against the remaining list, in order, for any
counter value. -/
theorem innerPairs_triples (p : DetectorParams) (sym : String)
    (ex1 : String) (t1 : Ticker) :
    ∀ (ctr : ℕ) (rest : List (String × Ticker)),
    ((innerPairs p sym ex1 t1 ctr rest).1.map oppTriple) =
      emittedTriples p
        (rest.flatMap fun y => [((ex1, t1), y), (y, (ex1, t1))]) := by
  intro ctr rest
  induction rest generalizing ctr with
  | nil => simp [innerPairs, emittedTriples]
  | cons y ys ih =>
    obtain ⟨ey, ty⟩ := y
    simp only [innerPairs, List.flatMap_cons, List.map_append]
    rw [show [((ex1, t1), (ey, ty)), ((ey, ty), (ex1, t1))] ++
          ys.flatMap (fun y => [((ex1, t1), y), (y, (ex1, t1))]) =
        ([((ex1, t1), (ey, ty))] ++ [((ey, ty), (ex1, t1))]) ++
          ys.flatMap (fun y => [((ex1, t1), y), (y, (ex1, t1))]) from rfl]
    rw [emittedTriples_append, emittedTriples_append]
    rw [checkOpportunity_triples, checkOpportunity_triples, ih]

/-- The outer loop of `check_arbitrage` emits exactly the qualifying
directed pairs, in enumeration order, for any counter value. -/
theorem outerPairs_triples (p : DetectorParams) (sym : String) :
    ∀ (ctr : ℕ) (l : List (String × Ticker)),
    ((outerPairs p sym ctr l).1.map oppTriple) =
      emittedTriples p (directedPairs l) := by
  intro ctr l
  induction l generalizing ctr with
  | nil => simp [outerPairs, directedPairs, emittedTriples]
  | cons x rest ih =>
    obtain ⟨ex, tx⟩ := x
    simp only [outerPairs, directedPairs, List.map_append]
    rw [emittedTriples_append, innerPairs_triples, ih]

/-- C4 (amended): on a price update `check_arbitrage` emits exactly the
qualifying directed pairs in the order the exchange pairs are enumerated
from the cache (for `i < j` first `(ex_i, ex_j)` then `(ex_j, ex_i)`);
the emitted list is NOT sorted by spread percentage. -/
theorem c4_amended (p : DetectorParams)
    (cache : List (String × List (String × Ticker)))
    (ctr : ℕ) (sym : String) :
    ((checkArbitrage p cache ctr sym).1.map oppTriple) =
    emittedTriples p (directedPairs (dictGetD cache sym [])) := by
  unfold checkArbitrage
  split_ifs with h
  · rcases hl : dictGetD cache sym [] with _ | ⟨a, rest⟩
    · simp [directedPairs, emittedTriples]
    · rcases rest with _ | ⟨b, r2⟩
      · simp [directedPairs, emittedTriples]
      · rw [hl] at h
        simp only [List.length_cons] at h
        omega
  · exact outerPairs_triples p sym ctr _

/-- C4: falsified as stated.  With three cached exchanges the spreads are
emitted in pair-enumeration order `[1%, 10%, 400/51%]`, which is not
descending. -/
theorem c4_counterexample :
    ((checkArbitrage {} c4Cache 0 "BTC").1.map
        (fun o => o.spreadPercentage)) = [1, 10, 400/51] ∧
    ¬ List.Chain' (fun a b : ℚ => b ≤ a)
      ((checkArbitrage {} c4Cache 0 "BTC").1.map
        (fun o => o.spreadPercentage)) := by
  have h : ((checkArbitrage {} c4Cache 0 "BTC").1.map
      (fun o => o.spreadPercentage)) = [1, 10, 400/51] := by
    norm_num [checkArbitrage, outerPairs, innerPairs, checkOpportunity,
      calcOptimalSize, volumeLimitOf, dictGetD, c4Cache, c4TickerA,
      c4TickerB, c4TickerC, min_def]
  refine ⟨h, ?_⟩
  rw [h]
  intro hch
  rw [List.chain'_cons] at hch
  exact absurd hch.1 (by norm_num)

end OmgTool
